import Mathlib

/-!
# Verification of the `llmcontroller` wake-up service

Shallow embedding of `src/wakeup_service/main.py` (and the action surface of
`src/wakeup_service/surf_client.py`).  Network effects are modelled by oracle
functions supplied as inputs: `probe ip port` is the result of the TCP
readiness check `is_ollama_ready`, `resumeOk vmId` is the boolean returned by
`SurfVMController.resume_vm`, `pauseOk vmId` the one returned by `pause_vm`,
and `pollReady k` / `pollShutdown k` are the readiness probe result and the
shutdown-event flag observed at the k-th iteration of the wake-up polling
loop.  Timestamps are naturals (`datetime.now()` is monotone; `timedelta`
comparisons become truncated-subtraction comparisons, which agree because all
configured durations are non-negative).
-/

namespace WakeupService

/-- One entry of `vm_info_cache`: the value stored for an ip key
(`{"id": vm_id, "name": name, "ollama_port": ollama_port}`). -/
structure VMDetails where
  id : String
  name : String
  ollama_port : Nat
deriving Repr, DecidableEq

/-- The `vm_info_cache` dict, as its ordered item list (`ip -> details`). -/
abbrev Roster := List (String × VMDetails)

/-- The dicts built in `request_ollama_instance_endpoint`
(`{"ip": ip, "port": details["ollama_port"], **details}`). -/
structure VMFull where
  ip : String
  port : Nat
  id : String
  name : String
deriving Repr, DecidableEq

/-- Expansion of a cache item into the per-request VM dict. -/
def toFull (p : String × VMDetails) : VMFull :=
  ⟨p.1, p.2.ollama_port, p.2.id, p.2.name⟩

/-- The calls made through `SurfVMController`: `resume_vm` / `pause_vm`. -/
inductive VMAction where
  | resume
  | pause
deriving Repr, DecidableEq

/-- An `HTTPException` raised by the endpoint (status code and detail). -/
structure HTTPError where
  status : Nat
  detail : String
deriving Repr, DecidableEq

/-- The error `HTTPException(status_code=500, detail="No VMs configured in wake-up service.")`. -/
def noVMsConfiguredError : HTTPError :=
  ⟨500, "No VMs configured in wake-up service."⟩

/-- The error `HTTPException(status_code=503, detail=f"Failed to make VM ... responsive.")`. -/
def wakeFailedError (name : String) : HTTPError :=
  ⟨503, "Failed to make VM " ++ name ++ " responsive."⟩

/-- The error `HTTPException(status_code=500, detail="No VMs configured or available to wake.")`. -/
def noVMsAvailableError : HTTPError :=
  ⟨500, "No VMs configured or available to wake."⟩

/-- The `f"{ip}:{port}"` address string. -/
def addrString (ip : String) (port : Nat) : String :=
  ip ++ ":" ++ toString port

/-- Association-list lookup, mirroring Python dict indexing / `.get`. -/
def lookupA {β : Type} : List (String × β) → String → Option β
  | [], _ => none
  | (k, v) :: rest, k' => if k = k' then some v else lookupA rest k'

/-- Association-list update, mirroring Python dict assignment `m[k] = v`
(overwrite in place if the key exists, else append). -/
def setA {β : Type} : List (String × β) → String → β → List (String × β)
  | [], k, v => [(k, v)]
  | (k', v') :: rest, k, v =>
      if k' = k then (k', v) :: rest else (k', v') :: setA rest k v

/-- Association-list deletion, mirroring Python dict `del m[k]`. -/
def eraseA {β : Type} (m : List (String × β)) (k : String) : List (String × β) :=
  m.filter (fun p => p.1 ≠ k)

/-- The classification loop of `request_ollama_instance_endpoint`
(lines 192-200): partition the roster items, in order, into the
`active_vms_details` and `inactive_vms_details` lists according to
`is_ollama_ready(ip, details["ollama_port"])`. -/
def classify (roster : Roster) (probe : String → Nat → Bool) :
    List VMFull × List VMFull :=
  match roster with
  | [] => ([], [])
  | p :: rest =>
      let r := classify rest probe
      if probe p.1 p.2.ollama_port then (toFull p :: r.1, r.2)
      else (r.1, toFull p :: r.2)

/-- The polling loop of `_resume_and_poll_vm` (lines 124-141): at each
iteration, first check readiness, then the shutdown event, then sleep.
`fuel` is the number of iterations the `while time.time() - start_time <
WAKEUP_TIMEOUT_SECONDS` bound allows; the result is the iteration index at
which readiness was observed, or `none` on shutdown or timeout. -/
def pollLoop (ready shut : Nat → Bool) : Nat → Nat → Option Nat
  | 0, _ => none
  | fuel + 1, k =>
      if ready k then some k
      else if shut k then none
      else pollLoop ready shut fuel (k + 1)

/-- Result of `_resume_and_poll_vm`: the returned `Optional[str]`, the ips
whose `last_active_times` entry was set (`update_last_active_time`), and the
provider actions invoked. -/
structure PollOutcome where
  addr : Option String
  activated : List String
  actions : List (String × VMAction)
deriving Repr, DecidableEq

/-- Embedding of `_resume_and_poll_vm` (lines 111-146): trigger `resume_vm`; if the
trigger is rejected return `None` immediately; otherwise poll readiness up
to the timeout, returning `f"{ip}:{port}"` (and recording the VM active) on
success and `None` on shutdown or timeout.  All three failure causes
collapse to the same `None`. -/
def resumeAndPollVm (resumeTriggered : Bool) (fuel : Nat)
    (ready shut : Nat → Bool) (vm : VMFull) : PollOutcome :=
  if !resumeTriggered then ⟨none, [], [(vm.id, VMAction.resume)]⟩
  else
    match pollLoop ready shut fuel 0 with
    | some _ => ⟨some (addrString vm.ip vm.port), [vm.ip], [(vm.id, VMAction.resume)]⟩
    | none => ⟨none, [], [(vm.id, VMAction.resume)]⟩

/-- The cooldown check on `last_scale_up_initiation_time` (lines 218-226 and
270-275): `can_attempt_scale_up` is `False` exactly when a previous
initiation time exists and `now - last < SCALE_UP_COOLDOWN_SECONDS`. -/
def canAttemptScaleUp (st : Option Nat) (now cooldown : Nat) : Bool :=
  match st with
  | none => true
  | some last => !decide (now - last < cooldown)

/-- One locked check-and-set region for the pre-warm throttle (the body of
`with vm_data_lock:` at lines 217-243 / 266-292, with the non-throttle
conditions abstracted into `canCond`): if the conditions hold and the
cooldown has elapsed, schedule a background wake (`true`) and set
`last_scale_up_initiation_time = now`; otherwise leave the state alone. -/
def prewarmStep (canCond : Bool) (cooldown now : Nat) (st : Option Nat) :
    Bool × Option Nat :=
  if canCond && canAttemptScaleUp st now cooldown then (true, some now)
  else (false, st)

/-- Input of one `request_ollama_instance_endpoint` call: the roster
snapshot, the configuration scalars, the throttle state, and the oracles for
the network effects.  `now` is the clock at the classification / scenario-1
lock, `now2` the (later) clock at the post-synchronous-wake lock. -/
structure ReqInput where
  roster : Roster
  probe : String → Nat → Bool
  target : Nat
  cooldown : Nat
  now : Nat
  now2 : Nat
  lastScaleUp : Option Nat
  resumeOk : String → Bool
  pollReady : Nat → Bool
  pollShutdown : Nat → Bool
  pollFuel : Nat

/-- Observable result of one `request_ollama_instance_endpoint` call:
the HTTP outcome (`X-Ready-GPU-Addr` header value on success, the raised
`HTTPException` on failure), the VM ids resumed synchronously, the VMs for
which a background wake task was scheduled, the new throttle state, the ips
marked active, and every `SurfVMController` action the call causes (the
synchronous `resume_vm` plus the `resume_vm` each scheduled background task
performs when run). -/
structure ReqResult where
  outcome : Except HTTPError String
  syncResumes : List String
  bgWakes : List VMFull
  lastScaleUp' : Option Nat
  lastActiveUpdates : List String
  actions : List (String × VMAction)
deriving Repr

/-- Total number of wake-trigger invocations a call causes: synchronous
`resume_vm` calls plus scheduled background wake tasks (each of which calls
`resume_vm` when it runs). -/
def wakeInvocations (r : ReqResult) : Nat :=
  r.syncResumes.length + r.bgWakes.length

/-- Scenario 1 of `request_ollama_instance_endpoint` (lines 207-249): at
least one VM is active.  Pick the first active VM, run the locked pre-warm
check-and-set, and answer with the chosen VM's address; if the pre-warm
fired, a background wake task on the first inactive VM was scheduled. -/
def serveActive (inp : ReqInput) (chosen : VMFull)
    (arest inactive : List VMFull) : ReqResult :=
  let step := prewarmStep
    (decide ((chosen :: arest).length < inp.target) && !inactive.isEmpty)
    inp.cooldown inp.now inp.lastScaleUp
  let bg := if step.1 then inactive.take 1 else []
  { outcome := Except.ok (addrString chosen.ip chosen.port),
    syncResumes := [],
    bgWakes := bg,
    lastScaleUp' := step.2,
    lastActiveUpdates := (chosen :: arest).map (fun v => v.ip),
    actions := bg.map (fun v => (v.id, VMAction.resume)) }

/-- Scenario 2 of `request_ollama_instance_endpoint` (lines 252-307): no VM
is active.  Synchronously wake the first inactive VM; on success run the
post-wake locked pre-warm check-and-set (lines 266-292) and answer with the
woken VM's address; on failure (trigger rejected, timeout, or shutdown — all
collapsed into the `None` of `_resume_and_poll_vm`) raise the 503 wake
failure. -/
def serveWake (inp : ReqInput) (vmToWake : VMFull) (irest : List VMFull) :
    ReqResult :=
  let pr := resumeAndPollVm (inp.resumeOk vmToWake.id) inp.pollFuel
    inp.pollReady inp.pollShutdown vmToWake
  match pr.addr with
  | some a =>
      let remaining := (vmToWake :: irest).filter
        (fun v => v.id != vmToWake.id)
      let step := prewarmStep
        (decide (1 < inp.target) && decide (1 < (vmToWake :: irest).length)
          && !remaining.isEmpty)
        inp.cooldown inp.now2 inp.lastScaleUp
      let bg := if step.1 then remaining.take 1 else []
      { outcome := Except.ok a,
        syncResumes := [vmToWake.id],
        bgWakes := bg,
        lastScaleUp' := step.2,
        lastActiveUpdates := pr.activated,
        actions := pr.actions ++ bg.map (fun v => (v.id, VMAction.resume)) }
  | none =>
      { outcome := Except.error (wakeFailedError vmToWake.name),
        syncResumes := [vmToWake.id],
        bgWakes := [],
        lastScaleUp' := inp.lastScaleUp,
        lastActiveUpdates := [],
        actions := pr.actions }

/-- Embedding of `request_ollama_instance_endpoint` (lines 174-314): reject an empty
roster, classify, then dispatch on the classification. -/
def requestInstance (inp : ReqInput) : ReqResult :=
  match inp.roster with
  | [] =>
      { outcome := Except.error noVMsConfiguredError, syncResumes := [],
        bgWakes := [], lastScaleUp' := inp.lastScaleUp,
        lastActiveUpdates := [], actions := [] }
  | _ :: _ =>
      match classify inp.roster inp.probe with
      | (chosen :: arest, inactive) => serveActive inp chosen arest inactive
      | ([], []) =>
          { outcome := Except.error noVMsAvailableError, syncResumes := [],
            bgWakes := [], lastScaleUp' := inp.lastScaleUp,
            lastActiveUpdates := [], actions := [] }
      | ([], vmToWake :: irest) => serveWake inp vmToWake irest

/-- The marking loop of one `auto_pause_scheduler` cycle (lines 334-346):
walk the roster, collect `vms_found_active_in_this_cycle`, and for every VM
found active that has no `last_active_times` entry, set it to `now` (the
global map and the cycle-local snapshot are updated in tandem, so a single
map suffices). -/
def sweepMark (probe : String → Nat → Bool) (now : Nat) :
    Roster → List (String × Nat) → List String × List (String × Nat)
  | [], m => ([], m)
  | (ip, d) :: rest, m =>
      if probe ip d.ollama_port then
        let m' := if (lookupA m ip).isNone then setA m ip now else m
        let r := sweepMark probe now rest m'
        (ip :: r.1, r.2)
      else sweepMark probe now rest m

/-- The pausing loop of one `auto_pause_scheduler` cycle (lines 348-382):
for each roster VM, read its `last_active` from the cycle snapshot `m1`; if
set and the VM was not found active, delete its entry from the live map `g`
and skip it; if set, found active, and idle past the threshold, trigger
`pause_vm` (recorded in the returned id list) and delete the entry only when
the trigger succeeded. -/
def sweepPause (found : List String) (m1 : List (String × Nat))
    (now threshold : Nat) (pauseOk : String → Bool) :
    Roster → List (String × Nat) → List (String × Nat) × List String
  | [], g => (g, [])
  | (ip, d) :: rest, g =>
      match lookupA m1 ip with
      | none => sweepPause found m1 now threshold pauseOk rest g
      | some t =>
          if ip ∈ found then
            if threshold < now - t then
              let g' := if pauseOk d.id then eraseA g ip else g
              let r := sweepPause found m1 now threshold pauseOk rest g'
              (r.1, d.id :: r.2)
            else sweepPause found m1 now threshold pauseOk rest g
          else sweepPause found m1 now threshold pauseOk rest (eraseA g ip)

/-- Result of one auto-pause sweep cycle: the `last_active_times` map after
the cycle, the VM ids on which `pause_vm` was triggered (in order), and the
provider actions issued. -/
structure SweepResult where
  lastActive : List (String × Nat)
  pauses : List String
  actions : List (String × VMAction)
deriving Repr

/-- One full cycle of `auto_pause_scheduler` (lines 326-382): snapshot,
mark, then pause. -/
def autoPauseCycle (roster : Roster) (probe : String → Nat → Bool)
    (now threshold : Nat) (pauseOk : String → Bool)
    (m0 : List (String × Nat)) : SweepResult :=
  let r1 := sweepMark probe now roster m0
  let r2 := sweepPause r1.1 r1.2 now threshold pauseOk roster r1.2
  ⟨r2.1, r2.2, r2.2.map (fun i => (i, VMAction.pause))⟩

/-- One row produced by `csv.DictReader`: the fields `load_vm_data` reads,
each possibly missing. -/
structure CsvRow where
  ip : Option String
  id : Option String
  name : Option String
  ollama_port : Option String
deriving Repr, DecidableEq

/-- Python truthiness of `row.get(key)`: a missing key or an empty string is
falsy. -/
def truthy : Option String → Bool
  | none => false
  | some s => !s.data.isEmpty

/-- Value of a decimal digit character, `none` for a non-digit. -/
def digitVal (c : Char) : Option Nat :=
  if c = '0' then some 0 else if c = '1' then some 1 else if c = '2' then some 2
  else if c = '3' then some 3 else if c = '4' then some 4 else if c = '5' then some 5
  else if c = '6' then some 6 else if c = '7' then some 7 else if c = '8' then some 8
  else if c = '9' then some 9 else none

/-- Accumulating decimal parse; `none` as soon as a non-digit appears. -/
def parseNatAux : List Char → Nat → Option Nat
  | [], acc => some acc
  | c :: rest, acc =>
      match digitVal c with
      | none => none
      | some d => parseNatAux rest (acc * 10 + d)

/-- Model of `int(s)` on a CSV field: parses a non-empty all-digit string, raises
(`none`) otherwise. -/
def parseNat (s : String) : Option Nat :=
  match s.data with
  | [] => none
  | l => parseNatAux l 0

/-- Model of `int(row.get("ollama_port", OLLAMA_DEFAULT_PORT))`: a missing field
falls back to the default; a present field must parse as a number, and a
parse failure is the `ValueError` that aborts the whole load. -/
def parsedPort (defaultPort : Nat) : Option String → Option Nat
  | none => some defaultPort
  | some s => parseNat s

/-- Processing of one CSV row inside `load_vm_data` (lines 65-77): rows with
a missing/empty ip or id are skipped; otherwise the port is parsed (`none` =
exception propagates) and the row is stored in the temp cache with dict
semantics. -/
def rowStep (defaultPort : Nat) (acc : Roster) (r : CsvRow) : Option Roster :=
  if truthy r.ip && truthy r.id then
    match r.ip, r.id with
    | some ip, some vmId =>
        match parsedPort defaultPort r.ollama_port with
        | none => none
        | some port => some (setA acc ip ⟨vmId, r.name.getD "", port⟩)
    | _, _ => some acc
  else some acc

/-- The row loop of `load_vm_data`, threading the temp cache; `none` means
an exception escaped the loop. -/
def processRows (defaultPort : Nat) : List CsvRow → Roster → Option Roster
  | [], acc => some acc
  | r :: rest, acc =>
      match rowStep defaultPort acc r with
      | none => none
      | some acc' => processRows defaultPort rest acc'

/-- Embedding of `load_vm_data` (lines 53-86): `fileRows = none` models a missing roster
file.  On a missing file or any exception during the load the cache is set
to empty — the previous cache `prev` is discarded, never preserved. -/
def load_vm_data (fileRows : Option (List CsvRow)) (defaultPort : Nat)
    (prev : Roster) : Roster :=
  match fileRows with
  | none => []
  | some rows =>
      match processRows defaultPort rows [] with
      | none => []
      | some c => c

/-- N simultaneous executions of the locked pre-warm check-and-set region:
all callers observed the same conditions and the same clock `now`; the lock
serialises the regions, so they run in sequence over the shared throttle
state.  Returns the total number of pre-warm triggers issued and the final
state. -/
def runPrewarm (canCond : Bool) (cooldown now : Nat) :
    Nat → Option Nat → Nat × Option Nat
  | 0, st => (0, st)
  | n + 1, st =>
      let s := prewarmStep canCond cooldown now st
      let r := runPrewarm canCond cooldown now n s.2
      ((if s.1 then 1 else 0) + r.1, r.2)

/-! ## General lemmas about the embedded operations -/

theorem classify_eq (roster : Roster) (probe : String → Nat → Bool) :
    classify roster probe =
      ((roster.filter (fun p => probe p.1 p.2.ollama_port)).map toFull,
       (roster.filter (fun p => !probe p.1 p.2.ollama_port)).map toFull) := by
  induction roster with
  | nil => rfl
  | cons p rest ih =>
      simp only [classify, ih]
      cases h : probe p.1 p.2.ollama_port <;>
        simp [List.filter_cons, h]

theorem find?_filter_cons {α : Type} (l : List α) (q : α → Bool) {p : α}
    (h : l.find? q = some p) : ∃ ts, l.filter q = p :: ts := by
  induction l with
  | nil => simp [List.find?] at h
  | cons a rest ih =>
      by_cases hq : q a = true
      · rw [List.find?_cons_of_pos _ hq] at h
        injection h with h
        subst h
        exact ⟨rest.filter q, by rw [List.filter_cons_of_pos hq]⟩
      · rw [List.find?_cons_of_neg _ (by simpa using hq)] at h
        obtain ⟨ts, hts⟩ := ih h
        exact ⟨ts, by rw [List.filter_cons_of_neg (by simpa using hq), hts]⟩

theorem requestInstance_eq_serveActive (inp : ReqInput) (chosen : VMFull)
    (arest inactive : List VMFull)
    (hcls : classify inp.roster inp.probe = (chosen :: arest, inactive)) :
    requestInstance inp = serveActive inp chosen arest inactive := by
  cases hr : inp.roster with
  | nil =>
      rw [hr] at hcls
      simp [classify] at hcls
  | cons a l =>
      rw [hr] at hcls
      unfold requestInstance
      rw [hr, hcls]

theorem requestInstance_eq_serveWake (inp : ReqInput) (vmToWake : VMFull)
    (irest : List VMFull)
    (hcls : classify inp.roster inp.probe = ([], vmToWake :: irest)) :
    requestInstance inp = serveWake inp vmToWake irest := by
  cases hr : inp.roster with
  | nil =>
      rw [hr] at hcls
      simp [classify] at hcls
  | cons a l =>
      rw [hr] at hcls
      unfold requestInstance
      rw [hr, hcls]

/-! ## Concrete inputs used by counterexamples and witnesses -/

/-- A two-VM roster. -/
def vmA : VMDetails := ⟨"vm-1", "alpha", 11434⟩

/-- Second VM of the concrete roster. -/
def vmB : VMDetails := ⟨"vm-2", "beta", 11434⟩

/-- Concrete roster with two VMs, in roster order `alpha`, `beta`. -/
def rosterAB : Roster := [("10.0.0.1", vmA), ("10.0.0.2", vmB)]

/-- Expansion `toFull` of the first roster entry. -/
def fullA : VMFull := ⟨"10.0.0.1", 11434, "vm-1", "alpha"⟩

/-- Expansion `toFull` of the second roster entry. -/
def fullB : VMFull := ⟨"10.0.0.2", 11434, "vm-2", "beta"⟩

/-- Concrete request where only the first VM is active, the target active
count is 2, and no pre-warm trigger was ever recorded. -/
def inpOneActive : ReqInput :=
  { roster := rosterAB, probe := fun ip _ => ip == "10.0.0.1",
    target := 2, cooldown := 60, now := 1000, now2 := 1010,
    lastScaleUp := none, resumeOk := fun _ => true,
    pollReady := fun _ => false, pollShutdown := fun _ => false,
    pollFuel := 15 }

/-- Like `inpOneActive`, but a pre-warm trigger was recorded 10 seconds ago
(less than the 60-second cooldown). -/
def inpOneActiveCooldown : ReqInput :=
  { inpOneActive with lastScaleUp := some 990 }

/-- Concrete request where every probe fails, the wake trigger is accepted,
and the woken VM becomes ready at the third poll. -/
def inpAllDownWakeOk : ReqInput :=
  { inpOneActive with
    probe := (fun _ _ => false),
    pollReady := (fun k => k == 2) }

/-- Concrete request where every probe fails and the wake trigger itself is
rejected by the provider. -/
def inpAllDownRejected : ReqInput :=
  { inpOneActive with
    probe := (fun _ _ => false),
    resumeOk := (fun _ => false) }

/-- Concrete request where every probe fails, the wake trigger is accepted,
but readiness is never observed within the timeout. -/
def inpAllDownTimeout : ReqInput :=
  { inpOneActive with probe := (fun _ _ => false) }

/-- Concrete request where every probe fails, the wake trigger is accepted,
and the shutdown signal is observed at the first poll iteration. -/
def inpAllDownShutdown : ReqInput :=
  { inpOneActive with
    probe := (fun _ _ => false),
    pollShutdown := (fun _ => true) }

/-! ## C1 — active VM present: address of first active VM, wake policy -/

/-- Counterexample to C1 as stated: with one active VM, one inactive VM,
`targetActiveCount = 2` and no prior pre-warm trigger, `requestInstance`
does return the first active VM's address, but it also causes a wake
invocation — a background pre-warm wake task on the inactive VM (whose
execution calls `resume_vm`).  So "never invokes the wake action" is false
on the code. -/
theorem requestInstance_active_wake_cex :
    (requestInstance inpOneActive).outcome =
      Except.ok (addrString "10.0.0.1" 11434) ∧
    (requestInstance inpOneActive).bgWakes = [fullB] ∧
    wakeInvocations (requestInstance inpOneActive) = 1 :=
  ⟨rfl, rfl, rfl⟩

/-- C1 (amended): if some VM's probe succeeds, `requestInstance` returns the
address of the first active VM in roster order and never performs a
synchronous wake; it may additionally schedule at most one background
pre-warm wake. -/
theorem requestInstance_active_first (inp : ReqInput) (p : String × VMDetails)
    (hfind : inp.roster.find? (fun q => inp.probe q.1 q.2.ollama_port) = some p) :
    (requestInstance inp).outcome = Except.ok (addrString p.1 p.2.ollama_port) ∧
    (requestInstance inp).syncResumes = [] ∧
    (requestInstance inp).bgWakes.length ≤ 1 := by
  obtain ⟨ts, hfilter⟩ := find?_filter_cons _ _ hfind
  have hcls := classify_eq inp.roster inp.probe
  rw [hfilter] at hcls
  rw [requestInstance_eq_serveActive inp (toFull p) (ts.map toFull) _ (by
    simpa using hcls)]
  unfold serveActive
  refine ⟨rfl, rfl, ?_⟩
  dsimp only
  split
  · exact (List.length_take_le 1 _).trans (le_refl 1)
  · simp

/-- Witness for C1's amended theorem at the concrete one-active input. -/
theorem requestInstance_active_first_witness :
    (requestInstance inpOneActive).outcome =
      Except.ok (addrString "10.0.0.1" 11434) ∧
    (requestInstance inpOneActive).syncResumes = [] ∧
    (requestInstance inpOneActive).bgWakes.length ≤ 1 := by
  have h := requestInstance_active_first inpOneActive ("10.0.0.1", vmA) (by rfl)
  exact h

/-! ## C2 — all probes fail: synchronous wake on the first roster VM -/

/-- Counterexample to C2 as stated: with two VMs, both probes failing,
`targetActiveCount = 2`, a successful synchronous wake and no prior pre-warm
trigger, `requestInstance` causes TWO wake invocations, not exactly one: the
synchronous `resume_vm` on the first VM plus a scheduled background pre-warm
wake on the second (lines 266-292 of main.py). -/
theorem requestInstance_single_wake_cex :
    wakeInvocations (requestInstance inpAllDownWakeOk) = 2 ∧
    (requestInstance inpAllDownWakeOk).syncResumes = ["vm-1"] ∧
    (requestInstance inpAllDownWakeOk).bgWakes = [fullB] :=
  ⟨rfl, rfl, rfl⟩

/-- C2 (amended): if every VM's probe fails and at least one VM exists,
`requestInstance` invokes the synchronous wake exactly once, on the first
inactive VM in roster order (the first roster VM); beyond that it schedules
at most one background pre-warm wake. -/
theorem requestInstance_all_down_wake (inp : ReqInput)
    (p : String × VMDetails) (rrest : Roster)
    (hr : inp.roster = p :: rrest)
    (hfail : ∀ q ∈ inp.roster, inp.probe q.1 q.2.ollama_port = false) :
    (requestInstance inp).syncResumes = [p.2.id] ∧
    (requestInstance inp).bgWakes.length ≤ 1 := by
  have hcls := classify_eq inp.roster inp.probe
  rw [List.filter_eq_nil_iff.mpr (by
        intro a ha
        simp [hfail a ha]),
      List.filter_eq_self.mpr (by
        intro a ha
        simp [hfail a ha])] at hcls
  rw [requestInstance_eq_serveWake inp (toFull p) (rrest.map toFull)
    (hcls.trans (by rw [hr]; rfl))]
  unfold serveWake
  dsimp only
  split
  · refine ⟨rfl, ?_⟩
    dsimp only
    split
    · exact List.length_take_le 1 _
    · simp
  · exact ⟨rfl, by simp⟩

/-- Witness for C2's amended theorem at the concrete all-down input. -/
theorem requestInstance_all_down_wake_witness :
    (requestInstance inpAllDownWakeOk).syncResumes = ["vm-1"] ∧
    (requestInstance inpAllDownWakeOk).bgWakes.length ≤ 1 := by
  have h := requestInstance_all_down_wake inpAllDownWakeOk ("10.0.0.1", vmA)
    [("10.0.0.2", vmB)] rfl (by decide)
  exact h

/-! ## C3 — pre-warm policy when an active VM exists -/

/-- C3: with at least one active VM, fewer active VMs than the target and a
non-empty inactive list: if no pre-warm trigger was ever recorded or the
cooldown has elapsed, exactly one background wake is scheduled (on the first
inactive VM) and `last_scale_up_initiation_time` is set to now; if the last
trigger is less than the cooldown ago, no background wake is scheduled and
the timestamp is unchanged. -/
theorem requestInstance_prewarm_policy (inp : ReqInput) (chosen : VMFull)
    (arest : List VMFull) (v : VMFull) (irest : List VMFull)
    (hcls : classify inp.roster inp.probe = (chosen :: arest, v :: irest))
    (hlt : (chosen :: arest).length < inp.target) :
    ((inp.lastScaleUp = none ∨
        ∃ s, inp.lastScaleUp = some s ∧ inp.cooldown ≤ inp.now - s) →
      (requestInstance inp).bgWakes = [v] ∧
      (requestInstance inp).lastScaleUp' = some inp.now) ∧
    (∀ s, inp.lastScaleUp = some s → inp.now - s < inp.cooldown →
      (requestInstance inp).bgWakes = [] ∧
      (requestInstance inp).lastScaleUp' = inp.lastScaleUp) := by
  rw [requestInstance_eq_serveActive inp chosen arest (v :: irest) hcls]
  unfold serveActive prewarmStep canAttemptScaleUp
  simp only [List.length_cons] at hlt
  constructor
  · rintro (hnone | ⟨s, hs, hcd⟩)
    · rw [hnone]
      simp [hlt]
    · rw [hs]
      simp [hlt, Nat.not_lt.mpr hcd]
  · intro s hs hlt'
    rw [hs]
    simp [hlt']

/-- Witness for C3 at the one-active / one-inactive concrete inputs: with no
prior trigger the background wake on the inactive VM fires and the timestamp
is set; with a trigger 10 s ago (cooldown 60 s) nothing fires. -/
theorem requestInstance_prewarm_policy_witness :
    ((requestInstance inpOneActive).bgWakes = [fullB] ∧
      (requestInstance inpOneActive).lastScaleUp' = some 1000) ∧
    ((requestInstance inpOneActiveCooldown).bgWakes = [] ∧
      (requestInstance inpOneActiveCooldown).lastScaleUp' = some 990) := by
  constructor
  · exact (requestInstance_prewarm_policy inpOneActive
      ⟨"10.0.0.1", 11434, "vm-1", "alpha"⟩ [] fullB [] (by rfl)
      (by decide)).1 (Or.inl rfl)
  · exact (requestInstance_prewarm_policy inpOneActiveCooldown
      ⟨"10.0.0.1", 11434, "vm-1", "alpha"⟩ [] fullB [] (by rfl)
      (by decide)).2 990 rfl (by decide)

/-! ## C6 / C7 — how wake failures are reported to the caller -/

/-- Counterexample to C6 as stated: a rejected wake trigger and an accepted
trigger whose VM never becomes ready within the timeout produce the SAME
result for the caller — the identical
`HTTPException(503, "Failed to make VM alpha responsive.")` — so the two
causes are not distinguishable in the operation's result (they differ only
in logs). -/
theorem wake_failure_indistinguishable_cex :
    (requestInstance inpAllDownRejected).outcome =
      (requestInstance inpAllDownTimeout).outcome ∧
    (requestInstance inpAllDownTimeout).outcome =
      Except.error (wakeFailedError "alpha") :=
  ⟨rfl, rfl⟩

/-- C6 (amended): every failure of the synchronous wake — trigger rejected
by the provider, or trigger accepted but readiness never observed within the
timeout — is reported to the caller as the same 503 wake-failure error
naming the VM; the causes are distinguishable only in the logs, not in the
operation's result. -/
theorem wake_failure_uniform_error (inp : ReqInput) (vmw : VMFull)
    (irest : List VMFull)
    (hcls : classify inp.roster inp.probe = ([], vmw :: irest))
    (hfail : inp.resumeOk vmw.id = false ∨
      pollLoop inp.pollReady inp.pollShutdown inp.pollFuel 0 = none) :
    (requestInstance inp).outcome = Except.error (wakeFailedError vmw.name) := by
  rw [requestInstance_eq_serveWake inp vmw irest hcls]
  unfold serveWake resumeAndPollVm
  rcases hfail with hrej | hloop
  · rw [hrej]
    rfl
  · cases hres : inp.resumeOk vmw.id
    · rfl
    · simp [hloop]

/-- Witness for C6's amended theorem at the trigger-rejected input. -/
theorem wake_failure_uniform_error_witness :
    (requestInstance inpAllDownRejected).outcome =
      Except.error (wakeFailedError "alpha") :=
  wake_failure_uniform_error inpAllDownRejected fullA [fullB] rfl (Or.inl rfl)

/-- The polling loop of `_resume_and_poll_vm` returns `None` when the
shutdown event is observed (readiness not seen before it): shutdown aborts
the poll. -/
theorem pollLoop_shutdown (ready shut : Nat → Bool) :
    ∀ (fuel i k : Nat), i ≤ k → k < i + fuel →
    (∀ j, i ≤ j → j < k → ready j = false ∧ shut j = false) →
    ready k = false → shut k = true →
    pollLoop ready shut fuel i = none := by
  intro fuel
  induction fuel with
  | zero => intro i k hik hk _ _ _; omega
  | succ n ih =>
      intro i k hik hk hprev hready hshut
      unfold pollLoop
      rcases Nat.eq_or_lt_of_le hik with rfl | hlt
      · rw [hready, hshut]
        simp
      · have hi := hprev i (le_refl i) hlt
        rw [hi.1, hi.2]
        exact ih (i + 1) k hlt (by omega)
          (fun j hj hjk => hprev j (by omega) hjk) hready hshut

/-- Counterexample to C7 as stated: the wake trigger is accepted and the
shutdown signal is observed at the first poll of the synchronous
wake-and-poll, yet the caller receives an error — the same
`HTTPException(503, ...)` as any other wake failure, not a clean
non-error abandonment. -/
theorem shutdown_reported_as_error_cex :
    (requestInstance inpAllDownShutdown).outcome =
      Except.error (wakeFailedError "alpha") ∧
    inpAllDownShutdown.resumeOk "vm-1" = true ∧
    inpAllDownShutdown.pollShutdown 0 = true :=
  ⟨rfl, rfl, rfl⟩

/-- C7 (amended): when the shutdown signal is observed during the
wake-and-poll wait of a synchronous `requestInstance`, polling is abandoned
and the abandonment IS reported to the external caller, as the very same 503
wake-failure error used for trigger-rejected and timeout failures; only
background wake invocations discard the result without reporting. -/
theorem shutdown_reported_as_wake_failure (inp : ReqInput) (vmw : VMFull)
    (irest : List VMFull) (k : Nat)
    (hcls : classify inp.roster inp.probe = ([], vmw :: irest))
    (hres : inp.resumeOk vmw.id = true)
    (hk : k < inp.pollFuel)
    (hprev : ∀ j, j < k → inp.pollReady j = false ∧ inp.pollShutdown j = false)
    (hready : inp.pollReady k = false)
    (hshut : inp.pollShutdown k = true) :
    (requestInstance inp).outcome = Except.error (wakeFailedError vmw.name) := by
  rw [requestInstance_eq_serveWake inp vmw irest hcls]
  unfold serveWake resumeAndPollVm
  rw [hres]
  rw [pollLoop_shutdown inp.pollReady inp.pollShutdown inp.pollFuel 0 k
    (Nat.zero_le k) (by omega) (fun j _ hjk => hprev j hjk) hready hshut]
  rfl

/-- Witness for C7's amended theorem at the concrete shutdown input. -/
theorem shutdown_reported_as_wake_failure_witness :
    (requestInstance inpAllDownShutdown).outcome =
      Except.error (wakeFailedError "alpha") :=
  shutdown_reported_as_wake_failure inpAllDownShutdown fullA [fullB] 0 rfl rfl
    (by decide) (fun j hj => absurd hj (Nat.not_lt_zero j)) rfl rfl

/-! ## C8 — at most one pre-warm trigger under concurrent requests -/

/-- After a pre-warm trigger at time `now`, no further locked region run at
the same time `now` can pass the cooldown check (the throttle reads
`now - now = 0 < cooldown`). -/
theorem runPrewarm_after_trigger (canCond : Bool) (cooldown now : Nat)
    (h : 0 < cooldown) :
    ∀ n : Nat, (runPrewarm canCond cooldown now n (some now)).1 = 0 := by
  intro n
  induction n with
  | zero => rfl
  | succ m ih =>
      unfold runPrewarm prewarmStep canAttemptScaleUp
      simp [Nat.sub_self, h, ih]

/-- C8: any number of simultaneous `requestInstance` calls that run the
locked pre-warm check-and-set region at the same observed time `now` — the
check and the `last_scale_up_initiation_time` update being one atomic step
under `vm_data_lock` — cause at most one pre-warm wake trigger in total,
whatever throttle state they start from. -/
theorem runPrewarm_at_most_one (cooldown now : Nat) (h : 0 < cooldown) :
    ∀ (n : Nat) (canCond : Bool) (st : Option Nat),
      (runPrewarm canCond cooldown now n st).1 ≤ 1 := by
  intro n
  induction n with
  | zero => intro canCond st; simp [runPrewarm]
  | succ m ih =>
      intro canCond st
      unfold runPrewarm
      by_cases hc : (canCond && canAttemptScaleUp st now cooldown) = true
      · simp only [prewarmStep, hc, if_true]
        simpa using Nat.le_of_eq (runPrewarm_after_trigger canCond cooldown now h m)
      · simp only [prewarmStep, hc, if_false]
        simpa using ih canCond st

/-- Witness for C8 at a concrete cooldown and five simultaneous callers. -/
theorem runPrewarm_at_most_one_witness :
    0 < 60 ∧ (runPrewarm true 60 1000 5 none).1 ≤ 1 :=
  ⟨by decide, runPrewarm_at_most_one 60 1000 (by decide) 5 true none⟩

/-! ## C9 — roster-load failure empties the known-VM set -/

/-- An empty roster makes `requestInstance` raise the no-VMs-configured
error (lines 183-187). -/
theorem requestInstance_empty_roster (inp : ReqInput)
    (h : inp.roster = []) :
    (requestInstance inp).outcome = Except.error noVMsConfiguredError := by
  unfold requestInstance
  rw [h]

/-- C9: if the roster file is missing or any exception is raised while
loading it, `load_vm_data` sets the known-VM set to empty — discarding any
previously loaded roster — and every subsequent `requestInstance` over that
cache reports the no-VMs-configured error. -/
theorem load_failure_no_vms (prev : Roster) (defaultPort : Nat)
    (fileRows : Option (List CsvRow))
    (hfail : fileRows = none ∨
      ∃ rows, fileRows = some rows ∧ processRows defaultPort rows [] = none) :
    load_vm_data fileRows defaultPort prev = [] ∧
    ∀ inp : ReqInput, inp.roster = load_vm_data fileRows defaultPort prev →
      (requestInstance inp).outcome = Except.error noVMsConfiguredError := by
  have hempty : load_vm_data fileRows defaultPort prev = [] := by
    rcases hfail with rfl | ⟨rows, rfl, hpr⟩
    · rfl
    · simp [load_vm_data, hpr]
  refine ⟨hempty, ?_⟩
  intro inp hrost
  exact requestInstance_empty_roster inp (hrost.trans hempty)

/-- A CSV whose single row has an unparsable `ollama_port` ("abc"), raising
`ValueError` inside `load_vm_data`. -/
def badRows : List CsvRow :=
  [⟨some "10.0.0.1", some "vm-1", some "gpu", some "abc"⟩]

/-- A request input whose roster snapshot is the empty cache produced by a
failed load. -/
def inpEmptyRoster : ReqInput :=
  { inpOneActive with roster := [] }

/-- Witness for C9: a previously loaded two-VM roster is wiped by a load
whose row raises, and the subsequent request reports no VMs configured. -/
theorem load_failure_no_vms_witness :
    load_vm_data (some badRows) 11434 rosterAB = [] ∧
    (requestInstance inpEmptyRoster).outcome =
      Except.error noVMsConfiguredError := by
  have hbad : processRows 11434 badRows [] = none := by decide
  have h := load_failure_no_vms rosterAB 11434 (some badRows)
    (Or.inr ⟨badRows, rfl, hbad⟩)
  exact ⟨h.1, h.2 inpEmptyRoster (by rw [h.1]; rfl)⟩

/-! ## C10 — the request path never issues a pause -/

/-- Lemma: `_resume_and_poll_vm` performs exactly one provider action: the
`resume_vm` trigger. -/
theorem resumeAndPollVm_actions (b : Bool) (fuel : Nat)
    (ready shut : Nat → Bool) (vm : VMFull) :
    (resumeAndPollVm b fuel ready shut vm).actions =
      [(vm.id, VMAction.resume)] := by
  unfold resumeAndPollVm
  cases b
  · rfl
  · simp only [Bool.not_true, Bool.false_eq_true, if_false]
    cases pollLoop ready shut fuel 0 <;> rfl

/-- A nonempty roster never classifies to two empty lists. -/
theorem classify_cons_ne (a : String × VMDetails) (l : Roster)
    (probe : String → Nat → Bool) :
    classify (a :: l) probe ≠ ([], []) := by
  simp only [classify]
  split <;> simp

/-- Mapping VMs to scheduled resume actions yields only resume actions. -/
theorem all_resume_map (l : List VMFull) :
    ((l.map (fun v => (v.id, VMAction.resume))).all
      (fun a => decide (a.2 = VMAction.resume))) = true := by
  induction l with
  | nil => rfl
  | cons v t ih => simpa using ih

/-- C10: for every input and every outcome of probes and wake triggers, the
actions `requestInstance` causes (synchronous resume plus scheduled
background wakes) are all `resume_vm` calls; it never issues a `pause_vm`
(Sleep) action — `pause_vm` is triggered only by the auto-pause sweep. -/
theorem requestInstance_never_pauses (inp : ReqInput) :
    ((requestInstance inp).actions.all
      (fun a => decide (a.2 = VMAction.resume))) = true := by
  cases hr : inp.roster with
  | nil =>
      unfold requestInstance
      rw [hr]
      rfl
  | cons a l =>
      rcases hcl : classify inp.roster inp.probe with ⟨act, inact⟩
      cases act with
      | cons c ar =>
          rw [requestInstance_eq_serveActive inp c ar inact hcl]
          unfold serveActive
          exact all_resume_map _
      | nil =>
          cases inact with
          | nil =>
              rw [hr] at hcl
              exact absurd hcl (classify_cons_ne a l inp.probe)
          | cons w ir =>
              rw [requestInstance_eq_serveWake inp w ir hcl]
              unfold serveWake
              dsimp only
              cases hpr : (resumeAndPollVm (inp.resumeOk w.id) inp.pollFuel
                  inp.pollReady inp.pollShutdown w).addr with
              | none =>
                  simp [resumeAndPollVm_actions]
              | some addr =>
                  simp [resumeAndPollVm_actions, List.all_append,
                    all_resume_map]

/-! ## Association-map lemmas (dict semantics) -/

theorem lookupA_eraseA_self {β : Type} (m : List (String × β)) (k : String) :
    lookupA (eraseA m k) k = none := by
  induction m with
  | nil => rfl
  | cons p rest ih =>
      obtain ⟨a, b⟩ := p
      by_cases hp : a = k
      · subst hp
        simpa [eraseA, List.filter_cons, lookupA] using ih
      · simpa [eraseA, List.filter_cons, lookupA, hp] using ih

theorem lookupA_eraseA_ne {β : Type} (m : List (String × β)) (k' k : String)
    (h : k' ≠ k) : lookupA (eraseA m k') k = lookupA m k := by
  induction m with
  | nil => rfl
  | cons p rest ih =>
      obtain ⟨a, b⟩ := p
      by_cases hp : a = k'
      · subst hp
        simpa [eraseA, List.filter_cons, lookupA, h] using ih
      · by_cases hk : a = k
        · simp [eraseA, List.filter_cons, lookupA, hp, hk, Ne.symm h]
        · simpa [eraseA, List.filter_cons, lookupA, hp, hk] using ih

theorem lookupA_eraseA_none {β : Type} (m : List (String × β)) (k' k : String)
    (h : lookupA m k = none) : lookupA (eraseA m k') k = none := by
  by_cases hk : k' = k
  · rw [hk]
    exact lookupA_eraseA_self m k
  · rw [lookupA_eraseA_ne m k' k hk]
    exact h

theorem lookupA_setA_ne {β : Type} (m : List (String × β)) (k' k : String)
    (v : β) (h : k' ≠ k) : lookupA (setA m k' v) k = lookupA m k := by
  induction m with
  | nil => simp [setA, lookupA, h]
  | cons p rest ih =>
      obtain ⟨a, b⟩ := p
      by_cases hp : a = k'
      · subst hp
        simp [setA, lookupA, h]
      · simp [setA, lookupA, hp, ih]

/-! ## Lemmas about the marking loop of the auto-pause cycle -/

theorem sweepMark_found (probe : String → Nat → Bool) (now : Nat) :
    ∀ (roster : Roster) (m : List (String × Nat)),
      (sweepMark probe now roster m).1 =
        (roster.filter (fun p => probe p.1 p.2.ollama_port)).map Prod.fst := by
  intro roster
  induction roster with
  | nil => intro m; rfl
  | cons q rest ih =>
      intro m
      obtain ⟨ip, d⟩ := q
      by_cases h : probe ip d.ollama_port
      · simp [sweepMark, h, List.filter_cons, ih]
      · simp [sweepMark, h, List.filter_cons, ih]

theorem sweepMark_lookup_some (probe : String → Nat → Bool)
    (now : Nat) (ip : String) (t : Nat) :
    ∀ (roster : Roster) (m : List (String × Nat)), lookupA m ip = some t →
      lookupA (sweepMark probe now roster m).2 ip = some t := by
  intro roster
  induction roster with
  | nil => intro m hm; exact hm
  | cons q rest ih =>
      intro m hm
      obtain ⟨ip', d'⟩ := q
      by_cases h : probe ip' d'.ollama_port
      · simp only [sweepMark, h, if_true]
        apply ih
        by_cases habs : (lookupA m ip').isNone
        · have hne : ip' ≠ ip := by
            intro heq
            rw [heq, hm] at habs
            simp at habs
          simp only [habs, if_true]
          rw [lookupA_setA_ne m ip' ip now hne]
          exact hm
        · simp only [habs, if_false]
          exact hm
      · simp only [sweepMark, h, if_false]
        exact ih m hm

/-- Membership in the found-active list is exactly probe success, for a
roster whose ip keys are distinct. -/
theorem sweepMark_found_iff (probe : String → Nat → Bool) (now : Nat)
    (roster : Roster) (m : List (String × Nat)) (ip : String) (d : VMDetails)
    (hmem : (ip, d) ∈ roster) (hnd : (roster.map Prod.fst).Nodup) :
    (ip ∈ (sweepMark probe now roster m).1 ↔ probe ip d.ollama_port = true) := by
  rw [sweepMark_found probe now roster m]
  constructor
  · intro hin
    rcases List.mem_map.mp hin with ⟨q, hq, hq1⟩
    obtain ⟨hqr, hpred⟩ := List.mem_filter.mp hq
    have : q = (ip, d) := by
      apply List.inj_on_of_nodup_map hnd hqr hmem
      rw [hq1]
    rw [this] at hpred
    exact hpred
  · intro hprobe
    exact List.mem_map.mpr ⟨(ip, d),
      List.mem_filter.mpr ⟨hmem, by simpa using hprobe⟩, rfl⟩

/-! ## Lemmas about the pausing loop of the auto-pause cycle -/

/-- The pausing loop never (re)creates a `last_active_times` entry: a key
absent from the live map stays absent. -/
theorem sweepPause_lookup_none (found : List String)
    (m1 : List (String × Nat)) (now threshold : Nat) (pauseOk : String → Bool)
    (ip : String) :
    ∀ (roster : Roster) (g : List (String × Nat)), lookupA g ip = none →
      lookupA (sweepPause found m1 now threshold pauseOk roster g).1 ip = none := by
  intro roster
  induction roster with
  | nil => intro g hg; exact hg
  | cons q rest ih =>
      intro g hg
      obtain ⟨ip', d'⟩ := q
      simp only [sweepPause]
      cases hl : lookupA m1 ip' with
      | none => exact ih g hg
      | some t' =>
          dsimp only
          by_cases hf : ip' ∈ found
          · rw [if_pos hf]
            by_cases hth : threshold < now - t'
            · rw [if_pos hth]
              dsimp only
              apply ih
              by_cases hok : pauseOk d'.id = true
              · rw [if_pos hok]
                exact lookupA_eraseA_none g ip' ip hg
              · rw [if_neg hok]
                exact hg
            · rw [if_neg hth]
              exact ih g hg
          · rw [if_neg hf]
            exact ih (eraseA g ip') (lookupA_eraseA_none g ip' ip hg)

/-- Every id in the pause-trigger list comes from a roster entry whose ip
was found active this cycle. -/
theorem sweepPause_mem_pauses (found : List String)
    (m1 : List (String × Nat)) (now threshold : Nat) (pauseOk : String → Bool)
    (i : String) :
    ∀ (roster : Roster) (g : List (String × Nat)),
      i ∈ (sweepPause found m1 now threshold pauseOk roster g).2 →
      ∃ q, q ∈ roster ∧ q.2.id = i ∧ q.1 ∈ found := by
  intro roster
  induction roster with
  | nil => intro g h; simp [sweepPause] at h
  | cons q rest ih =>
      intro g h
      obtain ⟨ip', d'⟩ := q
      simp only [sweepPause] at h
      cases hl : lookupA m1 ip' with
      | none =>
          rw [hl] at h
          dsimp only at h
          obtain ⟨q, hq, hid, hf⟩ := ih g h
          exact ⟨q, List.mem_cons_of_mem _ hq, hid, hf⟩
      | some t' =>
          rw [hl] at h
          dsimp only at h
          by_cases hf : ip' ∈ found
          · rw [if_pos hf] at h
            by_cases hth : threshold < now - t'
            · rw [if_pos hth] at h
              dsimp only at h
              rcases List.mem_cons.mp h with rfl | h2
              · exact ⟨(ip', d'), List.mem_cons_self _ _, rfl, hf⟩
              · obtain ⟨q, hq, hid, hff⟩ := ih _ h2
                exact ⟨q, List.mem_cons_of_mem _ hq, hid, hff⟩
            · rw [if_neg hth] at h
              obtain ⟨q, hq, hid, hff⟩ := ih g h
              exact ⟨q, List.mem_cons_of_mem _ hq, hid, hff⟩
          · rw [if_neg hf] at h
            obtain ⟨q, hq, hid, hff⟩ := ih _ h
            exact ⟨q, List.mem_cons_of_mem _ hq, hid, hff⟩

/-- Processing roster entries whose ips all differ from `ip` leaves the
`last_active_times` entry of `ip` untouched. -/
theorem sweepPause_lookup_of_not_mem (found : List String)
    (m1 : List (String × Nat)) (now threshold : Nat) (pauseOk : String → Bool)
    (ip : String) :
    ∀ (roster : Roster) (g : List (String × Nat)),
      (∀ q ∈ roster, q.1 ≠ ip) →
      lookupA (sweepPause found m1 now threshold pauseOk roster g).1 ip =
        lookupA g ip := by
  intro roster
  induction roster with
  | nil => intro g _; rfl
  | cons q rest ih =>
      intro g hq
      obtain ⟨ip', d'⟩ := q
      have hne : ip' ≠ ip := hq (ip', d') (List.mem_cons_self _ _)
      have hqr : ∀ q ∈ rest, q.1 ≠ ip :=
        fun q hmem => hq q (List.mem_cons_of_mem _ hmem)
      simp only [sweepPause]
      cases hl : lookupA m1 ip' with
      | none => exact ih g hqr
      | some t' =>
          dsimp only
          by_cases hf : ip' ∈ found
          · rw [if_pos hf]
            by_cases hth : threshold < now - t'
            · rw [if_pos hth]
              dsimp only
              rw [ih _ hqr]
              by_cases hok : pauseOk d'.id = true
              · rw [if_pos hok]
                exact lookupA_eraseA_ne g ip' ip hne
              · rw [if_neg hok]
            · rw [if_neg hth]
              exact ih g hqr
          · rw [if_neg hf]
            rw [ih _ hqr]
            exact lookupA_eraseA_ne g ip' ip hne

/-- A VM with a `last_active_times` entry that was not found active this
cycle has its entry deleted by the pausing loop (and the deletion survives
the rest of the loop). -/
theorem sweepPause_erases (found : List String) (m1 : List (String × Nat))
    (now threshold : Nat) (pauseOk : String → Bool) (ip : String) (t : Nat)
    (hm1 : lookupA m1 ip = some t) (hnf : ip ∉ found) :
    ∀ (roster : Roster) (g : List (String × Nat)), (∃ d, (ip, d) ∈ roster) →
      lookupA (sweepPause found m1 now threshold pauseOk roster g).1 ip = none := by
  intro roster
  induction roster with
  | nil => intro g hex; simp at hex
  | cons q rest ih =>
      intro g hex
      obtain ⟨ip', d'⟩ := q
      by_cases hip : ip' = ip
      · subst hip
        simp only [sweepPause]
        rw [hm1]
        dsimp only
        rw [if_neg hnf]
        exact sweepPause_lookup_none found m1 now threshold pauseOk ip' rest
          (eraseA g ip') (lookupA_eraseA_self g ip')
      · obtain ⟨d, hd⟩ := hex
        have hd' : (ip, d) ∈ rest := by
          rcases List.mem_cons.mp hd with heq | h2
          · exact absurd ((Prod.ext_iff.mp heq).1.symm) hip
          · exact h2
        simp only [sweepPause]
        cases hl : lookupA m1 ip' with
        | none => exact ih g ⟨d, hd'⟩
        | some t' =>
            dsimp only
            by_cases hf : ip' ∈ found
            · rw [if_pos hf]
              by_cases hth : threshold < now - t'
              · rw [if_pos hth]
                dsimp only
                exact ih _ ⟨d, hd'⟩
              · rw [if_neg hth]
                exact ih g ⟨d, hd'⟩
            · rw [if_neg hf]
              exact ih _ ⟨d, hd'⟩

/-- Core of C5: a VM with an activity entry, found active, and idle past the
threshold gets exactly one pause trigger in the cycle; its entry is deleted
exactly when the trigger succeeds. -/
theorem sweepPause_idle (found : List String) (m1 : List (String × Nat))
    (now threshold : Nat) (pauseOk : String → Bool) (ip : String)
    (d : VMDetails) (t : Nat)
    (hm1 : lookupA m1 ip = some t) (hfound : ip ∈ found)
    (hidle : threshold < now - t) :
    ∀ (roster : Roster) (g : List (String × Nat)), (ip, d) ∈ roster →
      (roster.map Prod.fst).Nodup →
      (roster.map (fun q => q.2.id)).Nodup →
      ((sweepPause found m1 now threshold pauseOk roster g).2.count d.id = 1) ∧
      (pauseOk d.id = true →
        lookupA (sweepPause found m1 now threshold pauseOk roster g).1 ip = none) ∧
      (pauseOk d.id = false →
        lookupA (sweepPause found m1 now threshold pauseOk roster g).1 ip =
          lookupA g ip) := by
  intro roster
  induction roster with
  | nil => intro g hmem; simp at hmem
  | cons q rest ih =>
      intro g hmem hips hids
      obtain ⟨ip', d'⟩ := q
      rw [List.map_cons, List.nodup_cons] at hips hids
      obtain ⟨hipnin, hipsr⟩ := hips
      obtain ⟨hidnin, hidsr⟩ := hids
      by_cases hip : ip' = ip
      · subst hip
        have hd : d' = d := by
          rcases List.mem_cons.mp hmem with heq | h2
          · exact ((Prod.ext_iff.mp heq).2).symm
          · exact absurd (List.mem_map.mpr ⟨(ip', d), h2, rfl⟩) hipnin
        subst hd
        simp only [sweepPause]
        rw [hm1]
        dsimp only
        rw [if_pos hfound, if_pos hidle]
        dsimp only
        refine ⟨?_, ?_, ?_⟩
        · have hnotin : d'.id ∉ (sweepPause found m1 now threshold pauseOk rest
              (if pauseOk d'.id = true then eraseA g ip' else g)).2 := by
            intro hin
            obtain ⟨q, hq, hqid, _⟩ := sweepPause_mem_pauses found m1 now
              threshold pauseOk d'.id rest _ hin
            exact hidnin (List.mem_map.mpr ⟨q, hq, hqid⟩)
          rw [List.count_cons_self, List.count_eq_zero.mpr hnotin]
        · intro hok
          rw [if_pos hok]
          exact sweepPause_lookup_none found m1 now threshold pauseOk ip' rest
            (eraseA g ip') (lookupA_eraseA_self g ip')
        · intro hok
          rw [if_neg (by rw [hok]; exact Bool.false_ne_true)]
          exact sweepPause_lookup_of_not_mem found m1 now threshold pauseOk
            ip' rest g (fun q hq heq =>
              hipnin (List.mem_map.mpr ⟨q, hq, heq⟩))
      · have hmem' : (ip, d) ∈ rest := by
          rcases List.mem_cons.mp hmem with heq | h2
          · exact absurd ((Prod.ext_iff.mp heq).1.symm) hip
          · exact h2
        have hdid : d.id ∈ rest.map (fun q => q.2.id) :=
          List.mem_map.mpr ⟨(ip, d), hmem', rfl⟩
        have hdne : d.id ≠ d'.id := fun he => hidnin (he ▸ hdid)
        have IH := fun g => ih g hmem' hipsr hidsr
        simp only [sweepPause]
        cases hl : lookupA m1 ip' with
        | none => exact IH g
        | some t' =>
            dsimp only
            by_cases hf : ip' ∈ found
            · rw [if_pos hf]
              by_cases hth : threshold < now - t'
              · rw [if_pos hth]
                dsimp only
                refine ⟨?_, fun hok => (IH _).2.1 hok, fun hok => ?_⟩
                · rw [List.count_cons_of_ne hdne]
                  exact (IH _).1
                · rw [(IH _).2.2 hok]
                  by_cases hok' : pauseOk d'.id = true
                  · rw [if_pos hok']
                    exact lookupA_eraseA_ne g ip' ip hip
                  · rw [if_neg hok']
              · rw [if_neg hth]
                exact IH g
            · rw [if_neg hf]
              refine ⟨(IH _).1, fun hok => (IH _).2.1 hok, fun hok => ?_⟩
              rw [(IH _).2.2 hok]
              exact lookupA_eraseA_ne g ip' ip hip

/-! ## C4 / C5 — the auto-pause sweep -/

/-- C4: in a sweep cycle, every VM that has `lastActiveAt` set but whose
readiness probe fails this cycle has its `lastActiveAt` cleared and is never
selected as a pause target in that same cycle (no Sleep trigger is issued
for it). -/
theorem autoPause_unresponsive_cleared (roster : Roster)
    (probe : String → Nat → Bool) (now threshold : Nat)
    (pauseOk : String → Bool) (m0 : List (String × Nat)) (ip : String)
    (d : VMDetails) (t : Nat)
    (hmem : (ip, d) ∈ roster)
    (hips : (roster.map Prod.fst).Nodup)
    (hids : (roster.map (fun q => q.2.id)).Nodup)
    (hm0 : lookupA m0 ip = some t)
    (hprobe : probe ip d.ollama_port = false) :
    lookupA (autoPauseCycle roster probe now threshold pauseOk m0).lastActive
      ip = none ∧
    d.id ∉ (autoPauseCycle roster probe now threshold pauseOk m0).pauses := by
  have hm1 : lookupA (sweepMark probe now roster m0).2 ip = some t :=
    sweepMark_lookup_some probe now ip t roster m0 hm0
  have hnf : ip ∉ (sweepMark probe now roster m0).1 := by
    rw [sweepMark_found_iff probe now roster m0 ip d hmem hips]
    simp [hprobe]
  unfold autoPauseCycle
  dsimp only
  constructor
  · exact sweepPause_erases (sweepMark probe now roster m0).1
      (sweepMark probe now roster m0).2 now threshold pauseOk ip t hm1 hnf
      roster (sweepMark probe now roster m0).2 ⟨d, hmem⟩
  · intro hin
    obtain ⟨q, hq, hqid, hqf⟩ := sweepPause_mem_pauses
      (sweepMark probe now roster m0).1 (sweepMark probe now roster m0).2
      now threshold pauseOk d.id roster (sweepMark probe now roster m0).2 hin
    have hqeq : q = (ip, d) :=
      List.inj_on_of_nodup_map hids hq hmem hqid
    rw [hqeq] at hqf
    exact hnf hqf

/-- Witness for C4: the second VM has an activity timestamp but its probe
fails; the cycle clears the timestamp and issues it no pause trigger. -/
theorem autoPause_unresponsive_cleared_witness :
    lookupA (autoPauseCycle rosterAB (fun ip _ => ip == "10.0.0.1") 2000 600
      (fun _ => true) [("10.0.0.2", 100)]).lastActive "10.0.0.2" = none ∧
    "vm-2" ∉ (autoPauseCycle rosterAB (fun ip _ => ip == "10.0.0.1") 2000 600
      (fun _ => true) [("10.0.0.2", 100)]).pauses := by
  have h := autoPause_unresponsive_cleared rosterAB
    (fun ip _ => ip == "10.0.0.1") 2000 600 (fun _ => true)
    [("10.0.0.2", 100)] "10.0.0.2" vmB 100
    (by decide) (by decide) (by decide) (by decide) (by decide)
  exact h

/-- C5: in a sweep cycle, a VM with `lastActiveAt` set, found active this
cycle, and idle past the inactivity threshold gets exactly one Sleep trigger
in the cycle; on trigger success its `lastActiveAt` is cleared, on failure
it is left unchanged (so the next cycle retries). -/
theorem autoPause_idle_pause_once (roster : Roster)
    (probe : String → Nat → Bool) (now threshold : Nat)
    (pauseOk : String → Bool) (m0 : List (String × Nat)) (ip : String)
    (d : VMDetails) (t : Nat)
    (hmem : (ip, d) ∈ roster)
    (hips : (roster.map Prod.fst).Nodup)
    (hids : (roster.map (fun q => q.2.id)).Nodup)
    (hm0 : lookupA m0 ip = some t)
    (hprobe : probe ip d.ollama_port = true)
    (hidle : threshold < now - t) :
    ((autoPauseCycle roster probe now threshold pauseOk m0).pauses.count
      d.id = 1) ∧
    (pauseOk d.id = true →
      lookupA (autoPauseCycle roster probe now threshold pauseOk m0).lastActive
        ip = none) ∧
    (pauseOk d.id = false →
      lookupA (autoPauseCycle roster probe now threshold pauseOk m0).lastActive
        ip = some t) := by
  have hm1 : lookupA (sweepMark probe now roster m0).2 ip = some t :=
    sweepMark_lookup_some probe now ip t roster m0 hm0
  have hfound : ip ∈ (sweepMark probe now roster m0).1 :=
    (sweepMark_found_iff probe now roster m0 ip d hmem hips).mpr hprobe
  have h := sweepPause_idle (sweepMark probe now roster m0).1
    (sweepMark probe now roster m0).2 now threshold pauseOk ip d t
    hm1 hfound hidle roster (sweepMark probe now roster m0).2 hmem hips hids
  unfold autoPauseCycle
  dsimp only
  exact ⟨h.1, h.2.1, fun hok => (h.2.2 hok).trans hm1⟩

/-- Witness for C5: the first VM is active but idle for 1900 s (threshold
600 s); the cycle issues exactly one pause trigger and, the trigger
succeeding, clears the timestamp. -/
theorem autoPause_idle_pause_once_witness :
    ((autoPauseCycle rosterAB (fun _ _ => true) 2000 600 (fun _ => true)
      [("10.0.0.1", 100)]).pauses.count "vm-1" = 1) ∧
    lookupA (autoPauseCycle rosterAB (fun _ _ => true) 2000 600
      (fun _ => true) [("10.0.0.1", 100)]).lastActive "10.0.0.1" = none := by
  have h := autoPause_idle_pause_once rosterAB (fun _ _ => true) 2000 600
    (fun _ => true) [("10.0.0.1", 100)] "10.0.0.1" vmA 100
    (by decide) (by decide) (by decide) (by decide) (by decide) (by decide)
  exact ⟨h.1, h.2.1 rfl⟩

end WakeupService
